import Mathlib

set_option maxRecDepth 100000

/-!
Verification of the MCU packetizer codec (mcu_packetizer.c / mcu_packetizer.h)
and the PC-side depacketizer it pairs with.

Modelling conventions:
* `uint8_t` values are `Nat`s reduced modulo 256 at every point where the C
  code performs a narrowing conversion (parameter passing, stores into
  `uint8_t` fields or locals).  `payload_length` (a `uint16_t` in the C
  struct) is represented by the length of the `payload` list; every state the
  builder API can produce keeps it far below 2^16, so no truncation is
  modelled there.
* A `float`/`double` argument is represented by the `Nat` holding its
  IEEE-754 bit pattern.  The C code writes `union DataValue` bytes
  `bytes[0] .. bytes[width-1]`; on the little-endian MCU target byte `i` of
  that union is byte `i` of the bit pattern, i.e. `bits / 256^i % 256`.
* The C functions return `0` on success and `-1` on error while mutating the
  packet through a pointer; they are modelled as pure functions returning the
  `Int` status code together with the resulting packet state.  Every error
  path in the C source returns before any write, so on error the returned
  state is the input state.
-/

/-- Type code `DATA_TYPE_INT` (0x01) from the `DataType` enumeration in
mcu_packetizer.h. -/
def DATA_TYPE_INT : Nat := 1

/-- Type code `DATA_TYPE_FLOAT` (0x02) from the `DataType` enumeration in
mcu_packetizer.h. -/
def DATA_TYPE_FLOAT : Nat := 2

/-- Type code `DATA_TYPE_DOUBLE` (0x03) from the `DataType` enumeration in
mcu_packetizer.h. -/
def DATA_TYPE_DOUBLE : Nat := 3

/-- The `SensorPacket` builder struct from mcu_packetizer.h.  The C struct
stores a 2040-byte buffer plus a `uint16_t payload_length`; here the filled
prefix of the buffer is the list `payload` and `payload_length` is its
length. -/
structure SensorPacket where
  slave_address : Nat
  data_type : Nat
  variable_count : Nat
  payload : List Nat

deriving instance DecidableEq for SensorPacket

/-- Function `get_type_size` from mcu_packetizer.c: the byte width of a data-type
code, `0` for a code outside the enumeration (the `default` arm of the
switch). -/
def get_type_size (type : Nat) : Nat :=
  if type = DATA_TYPE_INT then 1
  else if type = DATA_TYPE_FLOAT then 4
  else if type = DATA_TYPE_DOUBLE then 8
  else 0

/-- Byte `i` of the little-endian memory image of a value whose bit pattern
is `bits` (what `union DataValue`'s `bytes[i]` reads on the little-endian
target). -/
def le_byte (bits i : Nat) : Nat := bits / 256 ^ i % 256

/-- The first `width` bytes of the little-endian memory image of `bits`:
exactly the bytes the append loop `for i in 0..width` copies into the
payload. -/
def le_bytes (bits width : Nat) : List Nat := (List.range width).map (le_byte bits)

/-- Function `packet_init` from mcu_packetizer.c.  The `slave_addr` and `var_count`
parameters are `uint8_t` (narrowed mod 256 at the call boundary) and the
`type` argument is stored into the `uint8_t` field `data_type`.  The check
rejects `var_count == 0 || var_count > 255`; the second disjunct is dead for
a `uint8_t`, and is kept as the source writes it.  The `packet == NULL` check
has no counterpart for a by-value state.  Returns `none` for the `-1` error
and the fresh builder otherwise (`payload_length = 0`). -/
def packet_init (slave_addr type var_count : Nat) : Option SensorPacket :=
  if var_count % 256 = 0 ∨ var_count % 256 > 255 then none
  else some { slave_address := slave_addr % 256, data_type := type % 256,
              variable_count := var_count % 256, payload := [] }

/-- Function `packet_add_int` from mcu_packetizer.c.  The guards, in source order:
data-type mismatch; `current_count >= variable_count` where the `uint8_t`
local `current_count` is `payload_length / get_type_size(DATA_TYPE_INT)`
narrowed mod 256; the absolute ceiling `payload_length + 1 > 255 * 1`.  On
success the single value byte is appended. -/
def packet_add_int (packet : SensorPacket) (value : Nat) : Int × SensorPacket :=
  if packet.data_type ≠ DATA_TYPE_INT then (-1, packet)
  else if packet.payload.length / get_type_size DATA_TYPE_INT % 256 ≥ packet.variable_count then
    (-1, packet)
  else if packet.payload.length + 1 > 255 * get_type_size DATA_TYPE_INT then (-1, packet)
  else (0, { packet with payload := packet.payload ++ [value % 256] })

/-- Function `packet_add_float` from mcu_packetizer.c.  Same guard structure with
`type_size = get_type_size(DATA_TYPE_FLOAT)`; on success the four
little-endian bytes of the float's bit pattern are appended. -/
def packet_add_float (packet : SensorPacket) (bits : Nat) : Int × SensorPacket :=
  if packet.data_type ≠ DATA_TYPE_FLOAT then (-1, packet)
  else if packet.payload.length / get_type_size DATA_TYPE_FLOAT % 256 ≥ packet.variable_count then
    (-1, packet)
  else if packet.payload.length + get_type_size DATA_TYPE_FLOAT >
      255 * get_type_size DATA_TYPE_FLOAT then (-1, packet)
  else (0, { packet with payload := packet.payload ++ le_bytes bits (get_type_size DATA_TYPE_FLOAT) })

/-- Function `packet_add_double` from mcu_packetizer.c.  Same guard structure with
`type_size = get_type_size(DATA_TYPE_DOUBLE)`; on success the eight
little-endian bytes of the double's bit pattern are appended. -/
def packet_add_double (packet : SensorPacket) (bits : Nat) : Int × SensorPacket :=
  if packet.data_type ≠ DATA_TYPE_DOUBLE then (-1, packet)
  else if packet.payload.length / get_type_size DATA_TYPE_DOUBLE % 256 ≥ packet.variable_count then
    (-1, packet)
  else if packet.payload.length + get_type_size DATA_TYPE_DOUBLE >
      255 * get_type_size DATA_TYPE_DOUBLE then (-1, packet)
  else (0, { packet with payload := packet.payload ++ le_bytes bits (get_type_size DATA_TYPE_DOUBLE) })

/-- Function `packet_serialize` from mcu_packetizer.c.  The local
`expected_payload_size` is a `uint8_t`, so the product
`variable_count * get_type_size(data_type)` is narrowed mod 256 before the
comparison with the `uint16_t` `payload_length` — the narrowing is part of
the source and is modelled faithfully.  On success the returned bytes are
the 3-byte header followed by the payload (the C function also returns the
total length `3 + payload_length`, which is the length of this list). -/
def packet_serialize (packet : SensorPacket) : Option (List Nat) :=
  if packet.payload.length ≠ packet.variable_count * get_type_size packet.data_type % 256 then
    none
  else
    some ([packet.slave_address, packet.data_type, packet.variable_count] ++ packet.payload)

/-- A decoded packet as produced by the PC-side depacketizer: header fields
plus the list of decoded values.  An `INT8` value is the payload byte; a
`FLOAT32`/`FLOAT64` value is represented by its IEEE-754 bit pattern, the
number `struct.unpack` reads from the little-endian chunk (bit-exact). -/
structure DecodedPacket where
  slave_address : Nat
  data_type : Nat
  variable_count : Nat
  values : List Nat

deriving instance DecidableEq for DecodedPacket

/-- Little-endian combination of a byte chunk into the numeric value it
encodes: byte `i` contributes `b * 256^i`. -/
def le_combine : List Nat → Nat
  | [] => 0
  | b :: rest => b % 256 + 256 * le_combine rest

/-- Decode `count` consecutive chunks of `size` payload bytes each, in chunk
order (the depacketizer's loop over `range(variable_count)`). -/
def decode_values (size : Nat) : Nat → List Nat → List Nat
  | 0, _ => []
  | count + 1, payload =>
      le_combine (payload.take size) :: decode_values size count (payload.drop size)

/-- Modelled from the spec: `depacketize` from pc_depacketizer.py is not
under src/ (only the README documents it).  Following the spec's decoder
algorithm: reject fewer than 3 bytes; read `slave_address`, `data_type`,
`variable_count` from offsets 0, 1, 2; resolve the width through the type
registry and reject an unrecognized code; require the payload length to
equal `variable_count * width` exactly; split the payload into
`variable_count` chunks of `width` bytes and decode each little-endian
chunk.  Every error (`DepacketizationError`) is `none`. -/
def depacketize : List Nat → Option DecodedPacket
  | addr :: tcode :: count :: payload =>
      if get_type_size tcode = 0 then none
      else if payload.length ≠ count * get_type_size tcode then none
      else some { slave_address := addr, data_type := tcode, variable_count := count,
                  values := decode_values (get_type_size tcode) count payload }
  | _ => none

/-- Fold a list of float bit patterns through `packet_add_float`, keeping the
final builder state (the status codes are examined separately). -/
def add_float_list (p : SensorPacket) (l : List Nat) : SensorPacket :=
  l.foldl (fun q b => (packet_add_float q b).2) p

/-- Fold a list of double bit patterns through `packet_add_double`, keeping
the final builder state. -/
def add_double_list (p : SensorPacket) (l : List Nat) : SensorPacket :=
  l.foldl (fun q b => (packet_add_double q b).2) p

/-- A fresh builder declaring 64 FLOAT32 elements (the state produced by
`packet_init(&p, 1, DATA_TYPE_FLOAT, 64)`). -/
def floatBuilder64 : SensorPacket :=
  { slave_address := 1, data_type := DATA_TYPE_FLOAT, variable_count := 64, payload := [] }

/-- `floatBuilder64` after 64 successful `packet_add_float` calls: a fully
populated builder with a 256-byte payload. -/
def floatFull64 : SensorPacket := add_float_list floatBuilder64 (List.replicate 64 0)

/-- A fresh builder declaring 32 FLOAT64 elements (the state produced by
`packet_init(&p, 2, DATA_TYPE_DOUBLE, 32)`). -/
def doubleBuilder32 : SensorPacket :=
  { slave_address := 2, data_type := DATA_TYPE_DOUBLE, variable_count := 32, payload := [] }

/-- Bit pattern of the IEEE-754 double `1.0`. -/
def double_bits_one : Nat := 0x3FF0000000000000

/-- Bit pattern of the IEEE-754 single-precision float `3.25`. -/
def float_bits_3_25 : Nat := 0x40500000

/-- `doubleBuilder32` after 32 successful `packet_add_double` calls of the
value `1.0`: a fully populated builder with a 256-byte payload. -/
def doubleFull32 : SensorPacket :=
  add_double_list doubleBuilder32 (List.replicate 32 double_bits_one)

/-- A fresh builder declaring 3 INT8 elements (the state produced by
`packet_init(&p, 1, DATA_TYPE_INT, 3)`). -/
def intEmpty3 : SensorPacket :=
  { slave_address := 1, data_type := DATA_TYPE_INT, variable_count := 3, payload := [] }

/-- A fully populated one-element INT8 builder (declared count 1, one byte
appended). -/
def intFull1 : SensorPacket :=
  { slave_address := 1, data_type := DATA_TYPE_INT, variable_count := 1, payload := [7] }

/-- A fresh builder declaring one FLOAT32 element. -/
def float32Builder1 : SensorPacket :=
  { slave_address := 1, data_type := DATA_TYPE_FLOAT, variable_count := 1, payload := [] }

/-- A fresh builder declaring one FLOAT64 element. -/
def float64Builder1 : SensorPacket :=
  { slave_address := 1, data_type := DATA_TYPE_DOUBLE, variable_count := 1, payload := [] }

/-- The builder invariant of spec §3: declared count in 1..255, payload below
the absolute byte ceiling, filled element count (payload length divided by
the element width) at most the declared count, and the payload an exact
multiple of the element width (stated as a vanishing remainder). -/
def packet_inv (p : SensorPacket) : Prop :=
  0 < p.variable_count ∧ p.variable_count ≤ 255 ∧
  p.payload.length ≤ 255 * get_type_size p.data_type ∧
  p.payload.length / get_type_size p.data_type ≤ p.variable_count ∧
  p.payload.length % get_type_size p.data_type = 0

/-- Builder states reachable from a successful `packet_init` by any sequence
of append calls (each call is taken whether it succeeds or fails; a failed
call leaves the state as it was). -/
inductive Reachable : SensorPacket → Prop
  | init (slave type count : Nat) (p : SensorPacket) :
      packet_init slave type count = some p → Reachable p
  | add_int (p : SensorPacket) (v : Nat) : Reachable p → Reachable (packet_add_int p v).2
  | add_float (p : SensorPacket) (v : Nat) : Reachable p → Reachable (packet_add_float p v).2
  | add_double (p : SensorPacket) (v : Nat) : Reachable p → Reachable (packet_add_double p v).2

lemma le_bytes_length (bits width : Nat) : (le_bytes bits width).length = width := by
  simp [le_bytes]

lemma le_bytes_one (bits : Nat) : le_bytes bits 1 = [bits % 256] := by
  simp [le_bytes, le_byte, List.range_succ]

lemma get_type_size_eq_zero {t : Nat} (h1 : t ≠ DATA_TYPE_INT) (h2 : t ≠ DATA_TYPE_FLOAT)
    (h3 : t ≠ DATA_TYPE_DOUBLE) : get_type_size t = 0 := by
  simp [get_type_size, h1, h2, h3]

/-- Claim C8: the width function returns exactly 1 byte for INT8 (code 1),
4 bytes for FLOAT32 (code 2), 8 bytes for FLOAT64 (code 3), and the sentinel
"no width" result 0 for every input outside that closed three-member set. -/
theorem get_type_size_registry :
    get_type_size DATA_TYPE_INT = 1 ∧ get_type_size DATA_TYPE_FLOAT = 4 ∧
    get_type_size DATA_TYPE_DOUBLE = 8 ∧
    ∀ t : Nat, t ≠ DATA_TYPE_INT → t ≠ DATA_TYPE_FLOAT → t ≠ DATA_TYPE_DOUBLE →
      get_type_size t = 0 :=
  ⟨rfl, rfl, rfl, fun _ h1 h2 h3 => get_type_size_eq_zero h1 h2 h3⟩

/-- Witness for C8 at the unrecognized code 9. -/
theorem get_type_size_registry_witness :
    (9 : Nat) ≠ DATA_TYPE_INT ∧ (9 : Nat) ≠ DATA_TYPE_FLOAT ∧ (9 : Nat) ≠ DATA_TYPE_DOUBLE ∧
    get_type_size 9 = 0 :=
  ⟨by decide, by decide, by decide,
   get_type_size_registry.2.2.2 9 (by decide) (by decide) (by decide)⟩

/-- Claim C1, evaluated at the failing input: `expected_payload_size` in
`packet_serialize` is a `uint8_t`, so for a FLOAT32 builder declaring 64
elements the expected size `64 * 4 = 256` is narrowed to `0`.  The fully
populated builder (payload of exactly `variable_count * width = 256` bytes,
reached by 64 successful appends) is rejected, and the freshly initialized,
completely unpopulated builder serializes successfully into a header-only
packet — both directions of the claim fail. -/
theorem serialize_truncation_bug :
    packet_init 1 DATA_TYPE_FLOAT 64 = some floatBuilder64 ∧
    floatFull64.payload.length = 64 * get_type_size DATA_TYPE_FLOAT ∧
    packet_serialize floatFull64 = none ∧
    packet_serialize floatBuilder64 = some [1, DATA_TYPE_FLOAT, 64] := by decide

/-- Claim C2, evaluated at the failing input: a FLOAT64 builder declaring 32
elements, fully populated with 32 copies of the value `1.0`
(`32 * 8 = 256` payload bytes), cannot be serialized at all — the same
`uint8_t` narrowing makes `packet_serialize` compare the 256-byte payload
against `256 % 256 = 0` — so the serialize/decode round trip claimed for
every `variable_count` in 1..255 is impossible here. -/
theorem roundtrip_blocked_by_serialize_bug :
    packet_init 2 DATA_TYPE_DOUBLE 32 = some doubleBuilder32 ∧
    doubleFull32.payload.length = 32 * get_type_size DATA_TYPE_DOUBLE ∧
    packet_serialize doubleFull32 = none := by decide

/-- Claim C3: building with slave address 1, type INT8, count 3, appending
25, 60, 99 (each append returning success and extending the payload), then
serializing yields exactly the bytes 01 01 03 19 3C 63, and decoding those
bytes returns slave address 1, type INT8, and the values 25, 60, 99. -/
theorem concrete_scenario_int3 :
    packet_init 1 DATA_TYPE_INT 3 = some intEmpty3 ∧
    packet_add_int intEmpty3 25 =
      (0, { intEmpty3 with payload := [25] }) ∧
    packet_add_int { intEmpty3 with payload := [25] } 60 =
      (0, { intEmpty3 with payload := [25, 60] }) ∧
    packet_add_int { intEmpty3 with payload := [25, 60] } 99 =
      (0, { intEmpty3 with payload := [25, 60, 99] }) ∧
    packet_serialize { intEmpty3 with payload := [25, 60, 99] } =
      some [0x01, 0x01, 0x03, 0x19, 0x3C, 0x63] ∧
    depacketize [0x01, 0x01, 0x03, 0x19, 0x3C, 0x63] =
      some { slave_address := 1, data_type := DATA_TYPE_INT, variable_count := 3,
             values := [25, 60, 99] } := by decide

/-- Counterexample to C5: in the C API every append failure returns the same
`int8_t` code `-1`.  A type-mismatch failure (a float appended to an
INT8-typed builder) and a capacity failure (an extra int appended to a full
INT8 builder) produce identical results, so the two error cases are not
distinguishable. -/
theorem mismatch_error_equals_capacity_error :
    packet_add_float intEmpty3 float_bits_3_25 = (-1, intEmpty3) ∧
    packet_add_int intFull1 5 = (-1, intFull1) ∧
    (packet_add_float intEmpty3 float_bits_3_25).1 = (packet_add_int intFull1 5).1 := by decide

/-- Claim C5 as amended: every cross-type append always fails and leaves the
builder unchanged, but the failure is reported with the same return code
`-1` used for capacity exhaustion, not with a distinct error value. -/
theorem cross_type_append_fails (p : SensorPacket) (v : Nat) :
    (p.data_type ≠ DATA_TYPE_INT → packet_add_int p v = (-1, p)) ∧
    (p.data_type ≠ DATA_TYPE_FLOAT → packet_add_float p v = (-1, p)) ∧
    (p.data_type ≠ DATA_TYPE_DOUBLE → packet_add_double p v = (-1, p)) := by
  refine ⟨fun h => ?_, fun h => ?_, fun h => ?_⟩
  · simp [packet_add_int, h]
  · simp [packet_add_float, h]
  · simp [packet_add_double, h]

/-- Witness for the amended C5 at an INT8-typed builder and a float append. -/
theorem cross_type_append_fails_witness :
    intEmpty3.data_type ≠ DATA_TYPE_FLOAT ∧
    packet_add_float intEmpty3 0 = (-1, intEmpty3) :=
  ⟨by decide, (cross_type_append_fails intEmpty3 0).2.1 (by decide)⟩

/-- Claim C4: once a builder holds exactly `variable_count` elements,
i.e. its payload already measures `variable_count * width(data_type)` bytes,
the next matching-typed append always fails and leaves the builder
unchanged, for every declared count in 1..255 and each of the three data
types — the guard compares against the declared count, not the physical
buffer bound. -/
theorem full_builder_append_fails (p : SensorPacket) (v : Nat)
    (h1 : 0 < p.variable_count) (h2 : p.variable_count ≤ 255)
    (hfull : p.payload.length = p.variable_count * get_type_size p.data_type) :
    (p.data_type = DATA_TYPE_INT → packet_add_int p v = (-1, p)) ∧
    (p.data_type = DATA_TYPE_FLOAT → packet_add_float p v = (-1, p)) ∧
    (p.data_type = DATA_TYPE_DOUBLE → packet_add_double p v = (-1, p)) := by
  refine ⟨fun ht => ?_, fun ht => ?_, fun ht => ?_⟩
  · have hguard : p.payload.length / get_type_size DATA_TYPE_INT % 256 ≥ p.variable_count := by
      rw [hfull, ht]
      norm_num [get_type_size, DATA_TYPE_INT, DATA_TYPE_FLOAT, DATA_TYPE_DOUBLE]
      omega
    rw [packet_add_int.eq_def, if_neg (by simp [ht]), if_pos hguard]
  · have hguard : p.payload.length / get_type_size DATA_TYPE_FLOAT % 256 ≥ p.variable_count := by
      rw [hfull, ht]
      norm_num [get_type_size, DATA_TYPE_INT, DATA_TYPE_FLOAT, DATA_TYPE_DOUBLE]
      omega
    rw [packet_add_float.eq_def, if_neg (by simp [ht]), if_pos hguard]
  · have hguard : p.payload.length / get_type_size DATA_TYPE_DOUBLE % 256 ≥ p.variable_count := by
      rw [hfull, ht]
      norm_num [get_type_size, DATA_TYPE_INT, DATA_TYPE_FLOAT, DATA_TYPE_DOUBLE]
      omega
    rw [packet_add_double.eq_def, if_neg (by simp [ht]), if_pos hguard]

/-- Witness for C4 at a full one-element INT8 builder. -/
theorem full_builder_append_fails_witness :
    0 < intFull1.variable_count ∧ intFull1.variable_count ≤ 255 ∧
    intFull1.payload.length = intFull1.variable_count * get_type_size intFull1.data_type ∧
    packet_add_int intFull1 42 = (-1, intFull1) :=
  ⟨by decide, by decide, by decide,
   (full_builder_append_fails intFull1 42 (by decide) (by decide) (by decide)).1 (by decide)⟩

/-- Claim C6: every successful append extends the payload by exactly the
little-endian bytes of the value, `width(data_type)` of them (one
order-independent byte for INT8); in particular a FLOAT32 append of 3.25
(bit pattern 0x40500000) produces payload bytes 00 00 50 40 and a FLOAT64
append of 1.0 (bit pattern 0x3FF0000000000000) produces payload bytes
00 00 00 00 00 00 F0 3F. -/
theorem append_little_endian (p : SensorPacket) (v : Nat) :
    ((packet_add_int p v).1 = 0 →
      (packet_add_int p v).2.payload = p.payload ++ le_bytes v 1) ∧
    ((packet_add_float p v).1 = 0 →
      (packet_add_float p v).2.payload = p.payload ++ le_bytes v 4) ∧
    ((packet_add_double p v).1 = 0 →
      (packet_add_double p v).2.payload = p.payload ++ le_bytes v 8) ∧
    (packet_add_float float32Builder1 float_bits_3_25).2.payload =
      [0x00, 0x00, 0x50, 0x40] ∧
    (packet_add_double float64Builder1 double_bits_one).2.payload =
      [0x00, 0x00, 0x00, 0x00, 0x00, 0x00, 0xF0, 0x3F] := by
  refine ⟨?_, ?_, ?_, by decide, by decide⟩
  · simp only [packet_add_int]
    split
    · intro h; simp at h
    split
    · intro h; simp at h
    split
    · intro h; simp at h
    intro _
    simp [le_bytes_one]
  · simp only [packet_add_float]
    split
    · intro h; simp at h
    split
    · intro h; simp at h
    split
    · intro h; simp at h
    intro _
    norm_num [get_type_size, DATA_TYPE_INT, DATA_TYPE_FLOAT, DATA_TYPE_DOUBLE, le_bytes]
  · simp only [packet_add_double]
    split
    · intro h; simp at h
    split
    · intro h; simp at h
    split
    · intro h; simp at h
    intro _
    norm_num [get_type_size, DATA_TYPE_INT, DATA_TYPE_FLOAT, DATA_TYPE_DOUBLE, le_bytes]

/-- Witness for C6: one successful append of each kind. -/
theorem append_little_endian_witness :
    ((packet_add_int intEmpty3 25).1 = 0 ∧
      (packet_add_int intEmpty3 25).2.payload = intEmpty3.payload ++ le_bytes 25 1) ∧
    ((packet_add_float float32Builder1 float_bits_3_25).1 = 0 ∧
      (packet_add_float float32Builder1 float_bits_3_25).2.payload =
        float32Builder1.payload ++ le_bytes float_bits_3_25 4) ∧
    ((packet_add_double float64Builder1 double_bits_one).1 = 0 ∧
      (packet_add_double float64Builder1 double_bits_one).2.payload =
        float64Builder1.payload ++ le_bytes double_bits_one 8) :=
  ⟨⟨by decide, (append_little_endian intEmpty3 25).1 (by decide)⟩,
   ⟨by decide, (append_little_endian float32Builder1 float_bits_3_25).2.1 (by decide)⟩,
   ⟨by decide, (append_little_endian float64Builder1 double_bits_one).2.2.1 (by decide)⟩⟩

/-- Claim C7: every append is atomic — it either succeeds with status 0,
appending exactly `width(data_type)` bytes (so the payload length grows by
the element width, the filled-element count `payload_length / width` grows
by exactly one, and every other field is untouched), or it fails with status
-1 and returns the builder exactly as it was. -/
theorem append_atomic (p : SensorPacket) (v : Nat) :
    (packet_add_int p v = (0, { p with payload := p.payload ++ le_bytes v 1 }) ∧
       (p.payload ++ le_bytes v 1).length = p.payload.length + 1 ∧
       (p.payload.length + 1) / 1 = p.payload.length / 1 + 1 ∨
     packet_add_int p v = (-1, p)) ∧
    (packet_add_float p v = (0, { p with payload := p.payload ++ le_bytes v 4 }) ∧
       (p.payload ++ le_bytes v 4).length = p.payload.length + 4 ∧
       (p.payload.length + 4) / 4 = p.payload.length / 4 + 1 ∨
     packet_add_float p v = (-1, p)) ∧
    (packet_add_double p v = (0, { p with payload := p.payload ++ le_bytes v 8 }) ∧
       (p.payload ++ le_bytes v 8).length = p.payload.length + 8 ∧
       (p.payload.length + 8) / 8 = p.payload.length / 8 + 1 ∨
     packet_add_double p v = (-1, p)) := by
  refine ⟨?_, ?_, ?_⟩
  · simp only [packet_add_int]
    split
    · exact Or.inr rfl
    split
    · exact Or.inr rfl
    split
    · exact Or.inr rfl
    exact Or.inl ⟨by rw [le_bytes_one], by simp [le_bytes_length], by omega⟩
  · simp only [packet_add_float]
    split
    · exact Or.inr rfl
    split
    · exact Or.inr rfl
    split
    · exact Or.inr rfl
    exact Or.inl ⟨by norm_num [get_type_size, DATA_TYPE_INT, DATA_TYPE_FLOAT, DATA_TYPE_DOUBLE],
      by simp [le_bytes_length], by omega⟩
  · simp only [packet_add_double]
    split
    · exact Or.inr rfl
    split
    · exact Or.inr rfl
    split
    · exact Or.inr rfl
    exact Or.inl ⟨by norm_num [get_type_size, DATA_TYPE_INT, DATA_TYPE_FLOAT, DATA_TYPE_DOUBLE],
      by simp [le_bytes_length], by omega⟩

/-- Claim C10: `packet_init` accepts a data-type code outside the closed
enumeration (any code of width 0) together with any declared count in
1..255, and the resulting empty builder immediately serializes — the
expected payload size is `count * 0 = 0`, matching the empty payload — into
the 3-byte header-only packet that carries the unrecognized code, the
serialized length being 3. -/
theorem unknown_type_builds_and_serializes (slave tcode count : Nat)
    (hs : slave < 256) (htb : tcode < 256)
    (h1 : tcode ≠ DATA_TYPE_INT) (h2 : tcode ≠ DATA_TYPE_FLOAT) (h3 : tcode ≠ DATA_TYPE_DOUBLE)
    (hc1 : 1 ≤ count) (hc2 : count ≤ 255) :
    packet_init slave tcode count =
      some { slave_address := slave, data_type := tcode, variable_count := count,
             payload := [] } ∧
    packet_serialize
        { slave_address := slave, data_type := tcode, variable_count := count,
          payload := [] } =
      some [slave, tcode, count] ∧
    ([slave, tcode, count] : List Nat).length = 3 := by
  have hw : get_type_size tcode = 0 := get_type_size_eq_zero h1 h2 h3
  refine ⟨?_, ?_, rfl⟩
  · rw [packet_init.eq_def, if_neg (by omega)]
    rw [Nat.mod_eq_of_lt hs, Nat.mod_eq_of_lt htb, Nat.mod_eq_of_lt (by omega)]
  · simp [packet_serialize, hw]

/-- Witness for C10 at slave 5, type code 9, count 1. -/
theorem unknown_type_builds_and_serializes_witness :
    packet_init 5 9 1 =
      some { slave_address := 5, data_type := 9, variable_count := 1, payload := [] } ∧
    packet_serialize
        { slave_address := 5, data_type := 9, variable_count := 1, payload := [] } =
      some [5, 9, 1] ∧
    ([5, 9, 1] : List Nat).length = 3 :=
  unknown_type_builds_and_serializes 5 9 1 (by decide) (by decide) (by decide) (by decide)
    (by decide) (by decide) (by decide)

lemma packet_inv_init {slave type count : Nat} {p : SensorPacket}
    (h : packet_init slave type count = some p) : packet_inv p := by
  rw [packet_init.eq_def] at h
  by_cases hc : count % 256 = 0 ∨ count % 256 > 255
  · rw [if_pos hc] at h
    exact absurd h (by simp)
  · rw [if_neg hc] at h
    have hp := Option.some.inj h
    subst hp
    push_neg at hc
    refine ⟨?_, ?_, ?_, ?_, ?_⟩
    · show 0 < count % 256
      omega
    · show count % 256 ≤ 255
      omega
    · show List.length [] ≤ 255 * get_type_size (type % 256)
      simp
    · show List.length [] / get_type_size (type % 256) ≤ count % 256
      simp
    · show List.length [] % get_type_size (type % 256) = 0
      simp

lemma packet_inv_add_int (p : SensorPacket) (v : Nat) (h : packet_inv p) :
    packet_inv (packet_add_int p v).2 := by
  simp only [packet_inv] at h
  obtain ⟨h1, h2, h3, h4, h5⟩ := h
  simp only [packet_add_int]
  split
  · exact ⟨h1, h2, h3, h4, h5⟩
  next hty =>
    split
    · exact ⟨h1, h2, h3, h4, h5⟩
    next hcap =>
      split
      · exact ⟨h1, h2, h3, h4, h5⟩
      next hbuf =>
        have hdt : p.data_type = DATA_TYPE_INT := not_not.mp hty
        simp only [packet_inv]
        norm_num [get_type_size, DATA_TYPE_INT, DATA_TYPE_FLOAT, DATA_TYPE_DOUBLE,
          hdt] at hcap hbuf h3 h4 h5 ⊢
        omega

lemma packet_inv_add_float (p : SensorPacket) (v : Nat) (h : packet_inv p) :
    packet_inv (packet_add_float p v).2 := by
  simp only [packet_inv] at h
  obtain ⟨h1, h2, h3, h4, h5⟩ := h
  simp only [packet_add_float]
  split
  · exact ⟨h1, h2, h3, h4, h5⟩
  next hty =>
    split
    · exact ⟨h1, h2, h3, h4, h5⟩
    next hcap =>
      split
      · exact ⟨h1, h2, h3, h4, h5⟩
      next hbuf =>
        have hdt : p.data_type = DATA_TYPE_FLOAT := not_not.mp hty
        simp only [packet_inv]
        norm_num [get_type_size, DATA_TYPE_INT, DATA_TYPE_FLOAT, DATA_TYPE_DOUBLE,
          le_bytes_length, hdt] at hcap hbuf h3 h4 h5 ⊢
        omega

lemma packet_inv_add_double (p : SensorPacket) (v : Nat) (h : packet_inv p) :
    packet_inv (packet_add_double p v).2 := by
  simp only [packet_inv] at h
  obtain ⟨h1, h2, h3, h4, h5⟩ := h
  simp only [packet_add_double]
  split
  · exact ⟨h1, h2, h3, h4, h5⟩
  next hty =>
    split
    · exact ⟨h1, h2, h3, h4, h5⟩
    next hcap =>
      split
      · exact ⟨h1, h2, h3, h4, h5⟩
      next hbuf =>
        have hdt : p.data_type = DATA_TYPE_DOUBLE := not_not.mp hty
        simp only [packet_inv]
        norm_num [get_type_size, DATA_TYPE_INT, DATA_TYPE_FLOAT, DATA_TYPE_DOUBLE,
          le_bytes_length, hdt] at hcap hbuf h3 h4 h5 ⊢
        omega

lemma packet_inv_of_reachable {p : SensorPacket} (h : Reachable p) : packet_inv p := by
  induction h with
  | init slave type count p hp => exact packet_inv_init hp
  | add_int p v _ ih => exact packet_inv_add_int p v ih
  | add_float p v _ ih => exact packet_inv_add_float p v ih
  | add_double p v _ ih => exact packet_inv_add_double p v ih

/-- Claim C9: every builder reachable from a successful `packet_init` by any
sequence of appends, with a recognized data type, satisfies the invariants
at every observable point: declared count in 1..255, payload no longer than
`255 * width(data_type)` bytes, filled-element count
(`payload_length / width`) at most the declared count, and the payload an
exact multiple of the element width. -/
theorem reachable_builder_invariants (p : SensorPacket) (h : Reachable p)
    (ht : p.data_type = DATA_TYPE_INT ∨ p.data_type = DATA_TYPE_FLOAT ∨
      p.data_type = DATA_TYPE_DOUBLE) :
    0 < p.variable_count ∧ p.variable_count ≤ 255 ∧
    p.payload.length ≤ 255 * get_type_size p.data_type ∧
    p.payload.length / get_type_size p.data_type ≤ p.variable_count ∧
    get_type_size p.data_type ∣ p.payload.length := by
  obtain ⟨h1, h2, h3, h4, h5⟩ := packet_inv_of_reachable h
  exact ⟨h1, h2, h3, h4, Nat.dvd_of_mod_eq_zero h5⟩

/-- Witness for C9 at a builder reached by one init and one append. -/
theorem reachable_builder_invariants_witness :
    0 < (packet_add_int intEmpty3 25).2.variable_count ∧
    (packet_add_int intEmpty3 25).2.variable_count ≤ 255 ∧
    (packet_add_int intEmpty3 25).2.payload.length ≤
      255 * get_type_size (packet_add_int intEmpty3 25).2.data_type ∧
    (packet_add_int intEmpty3 25).2.payload.length /
      get_type_size (packet_add_int intEmpty3 25).2.data_type ≤
      (packet_add_int intEmpty3 25).2.variable_count ∧
    get_type_size (packet_add_int intEmpty3 25).2.data_type ∣
      (packet_add_int intEmpty3 25).2.payload.length :=
  reachable_builder_invariants (packet_add_int intEmpty3 25).2
    (Reachable.add_int intEmpty3 25 (Reachable.init 1 1 3 intEmpty3 (by decide)))
    (Or.inl (by decide))
